import Mathlib

/-!
Verification development for the steadybit NGINX sleep/block module
(`ngx_steadybit_sleep_block_module`).

The module registers one REWRITE-phase handler, `ngx_http_sleep_handler`,
which aggregates configured `sb_sleep_ms` delay expressions (maximum of the
valid numeric results) and `sb_block` rules (first condition evaluating to a
non-zero integer wins, its status expression supplying the terminal status,
defaulting to 503).  A request with a positive aggregated delay is suspended:
a per-request context is allocated, a pool cleanup hook is registered, a
timer is armed whose callback is `ngx_http_sleep_wake_handler`, and the
request's outstanding-work counter `r->main->count` is incremented.

The development below is a shallow embedding of that C code: complex-value
evaluation is abstracted as an environment mapping variable expressions to
optional strings (the external expression evaluator), nginx strings are Lean
strings, and `ngx_int_t` results of `ngx_atoi` are `Option Nat` (`none` =
`NGX_ERROR`; `ngx_atoi` never produces a negative value).
-/

/-- A compiled complex value (`ngx_http_complex_value_t`): either a pure
literal (no variables, `lengths == NULL`, evaluating to its own text — this
is what the `sb_block` parser stores for an absent status argument) or an
expression with variables, whose per-request evaluation is supplied by the
external evaluator. -/
inductive Expr where
  | lit (s : String)
  | var (id : Nat)
deriving DecidableEq, Repr

/-- The external expression evaluator at one instant: for each variable
expression id, the string `ngx_http_complex_value` would produce, or `none`
when evaluation fails (returns something other than `NGX_OK`). -/
def Env : Type := Nat → Option String

/-- `ngx_http_complex_value(r, expr, &val)`: a literal evaluates to its own
text; a variable expression is resolved by the external evaluator. -/
def ngx_http_complex_value (env : Env) : Expr → Option String
  | .lit s => some s
  | .var i => env i

/-- `NGX_MAX_INT_T_VALUE` on a 64-bit platform. -/
def NGX_MAX_INT_T_VALUE : Nat := 2 ^ 63 - 1

/-- Loop body of nginx's `ngx_atoi`: any non-digit character is an error,
and the running value is checked against the overflow cutoff exactly as the
C source does (`cutoff = NGX_MAX_INT_T_VALUE / 10`,
`cutlim = NGX_MAX_INT_T_VALUE % 10`). -/
def ngx_atoi_loop : List Char → Nat → Option Nat
  | [], value => some value
  | c :: rest, value =>
      if c < '0' ∨ '9' < c then none
      else if NGX_MAX_INT_T_VALUE / 10 ≤ value ∧
              (NGX_MAX_INT_T_VALUE / 10 < value ∨
               NGX_MAX_INT_T_VALUE % 10 < c.toNat - 48) then none
      else ngx_atoi_loop rest (value * 10 + (c.toNat - 48))

/-- nginx core `ngx_atoi(line, n)`: `none` models `NGX_ERROR` (empty input,
non-digit character, or overflow); a successful parse is a non-negative
integer. -/
def ngx_atoi (s : String) : Option Nat :=
  if s.length = 0 then none else ngx_atoi_loop s.data 0

/-- One iteration test of the block-condition loops in
`ngx_http_sleep_handler` / `ngx_http_sleep_wake_handler`: the condition is
truthy iff its evaluation succeeds, is non-empty, and `ngx_atoi` parses it
to a value that is neither `NGX_ERROR` nor `0`.  Evaluation failure, empty
and non-numeric results count as false. -/
def condTruthy (env : Env) (c : Expr) : Bool :=
  match ngx_http_complex_value env c with
  | none => false
  | some val =>
      if 0 < val.length then
        match ngx_atoi val with
        | some block => block ≠ 0
        | none => false
      else false

/-- Status evaluation on a matched block rule: `block_status` starts at 503
and is replaced only when the status expression evaluates successfully to a
non-empty string whose `ngx_atoi` value is positive. -/
def evalBlockStatus (env : Env) (se : Expr) : Nat :=
  match ngx_http_complex_value env se with
  | none => 503
  | some val =>
      if 0 < val.length then
        match ngx_atoi val with
        | some status => if 0 < status then status else 503
        | none => 503
      else 503

/-- The first-match block loop shared by `ngx_http_sleep_handler` (lines
303-326) and `ngx_http_sleep_wake_handler` (lines 443-466): walk the
parallel arrays `block_conditions` / `block_statuses` in configured order
and stop at the first truthy condition, returning that rule's status.  The
case of a conditions list longer than the statuses list would be an
out-of-bounds read `statuses[i]` in the C source; it is modelled as the
default 503 and proved unreachable for parser-produced configurations. -/
def resolveBlock (env : Env) : List Expr → List Expr → Option Nat
  | [], _ => none
  | c :: cs, [] =>
      if condTruthy env c then some 503 else resolveBlock env cs []
  | c :: cs, se :: ses =>
      if condTruthy env c then some (evalBlockStatus env se)
      else resolveBlock env cs ses

/-- The delay-aggregation loop of `ngx_http_sleep_handler` (lines 327-351):
each expression that evaluates successfully to a non-empty string parsed by
`ngx_atoi` raises the running maximum `max_sleep`; failures, empty values
and non-numeric values are skipped. -/
def maxSleepLoop (env : Env) : List Expr → Nat → Nat
  | [], max_sleep => max_sleep
  | d :: ds, max_sleep =>
      match ngx_http_complex_value env d with
      | none => maxSleepLoop env ds max_sleep
      | some val =>
          if 0 < val.length then
            match ngx_atoi val with
            | none => maxSleepLoop env ds max_sleep
            | some sleep_time =>
                maxSleepLoop env ds
                  (if max_sleep < sleep_time then sleep_time else max_sleep)
          else maxSleepLoop env ds max_sleep

/-- Aggregated delay: `max_sleep` starts at 0. -/
def maxSleep (env : Env) (delays : List Expr) : Nat :=
  maxSleepLoop env delays 0

/-- `ngx_http_sleep_loc_conf_t`: the three per-scope arrays.
`block_conditions` and `block_statuses` are parallel (same index). -/
structure LocConf where
  sleep_ms_values : List Expr
  block_conditions : List Expr
  block_statuses : List Expr
deriving DecidableEq, Repr

/-- `ngx_http_sleep_ctx_t` (the fields the control flow reads or writes;
`request` is the back-pointer, represented by embedding the context in the
request below). `timer_set` is the armed state of `ctx->sleep_event`. -/
structure SleepCtx where
  timer_set : Bool
  cleaned_up : Bool
  saved_phase_handler : Nat
deriving DecidableEq, Repr

/-- The slice of `ngx_http_request_t` the module touches: its module
context slot, the outstanding-work counter `r->main->count`, the response
status, the phase index, and the number of pool cleanup handlers this
module has registered on the request pool. -/
structure Request where
  moduleCtx : Option SleepCtx
  count : Nat
  headers_out_status : Nat
  phase_handler : Nat
  cleanups : Nat
deriving DecidableEq, Repr

/-- Outcome of a phase handler: `NGX_DECLINED`, `NGX_DONE` (pending),
`NGX_ERROR` (allocation failure, not reachable in this embedding where the
external allocator is assumed to succeed), or an HTTP status returned
directly (finalize). -/
inductive PhaseResult where
  | declined
  | done
  | error
  | finalize (status : Nat)
deriving DecidableEq, Repr

/-- `ngx_http_sleep_handler` (lines 278-419): evaluate the block rules
(first match wins) and the aggregated delay, then branch exactly as the C
source: block-and-sleep arms a suspension unless a context already exists
(in which case it finalizes with the block status at once); block-only
finalizes immediately; sleep-only arms a suspension unless a context
already exists (in which case it declines); otherwise decline. Arming
allocates the context, registers the pool cleanup, arms the timer and
increments `r->main->count`. -/
def ngx_http_sleep_handler (env : Env) (slcf : LocConf) (r : Request) :
    Request × PhaseResult :=
  let blk := resolveBlock env slcf.block_conditions slcf.block_statuses
  let should_block := blk.isSome
  let block_status := blk.getD 503
  let max_sleep := maxSleep env slcf.sleep_ms_values
  if should_block ∧ 0 < max_sleep then
    match r.moduleCtx with
    | some _ =>
        ({ r with headers_out_status := block_status },
         .finalize block_status)
    | none =>
        ({ r with
            moduleCtx := some
              { timer_set := true
                cleaned_up := false
                saved_phase_handler := r.phase_handler }
            cleanups := r.cleanups + 1
            count := r.count + 1 },
         .done)
  else if should_block then
    ({ r with headers_out_status := block_status }, .finalize block_status)
  else if 0 < max_sleep then
    match r.moduleCtx with
    | some _ => (r, .declined)
    | none =>
        ({ r with
            moduleCtx := some
              { timer_set := true
                cleaned_up := false
                saved_phase_handler := r.phase_handler }
            cleanups := r.cleanups + 1
            count := r.count + 1 },
         .done)
  else (r, .declined)

/-- What the wake handler did with the request. -/
inductive WakeOutcome where
  | finalized (status : Nat)
  | resumed
deriving DecidableEq, Repr

/-- `ngx_http_sleep_wake_handler` (lines 427-470): re-evaluate the block
rules against the request context at wake time; on a match set the response
status, finalize with it and decrement `r->main->count`; otherwise restore
`r->phase_handler` to the saved value plus one, re-run the phases and
decrement `r->main->count`.  Note that the handler never touches
`ctx->cleaned_up`. -/
def ngx_http_sleep_wake_handler (env : Env) (slcf : LocConf) (r : Request) :
    Request × Option WakeOutcome :=
  match r.moduleCtx with
  | none => (r, none)
  | some ctx =>
      match resolveBlock env slcf.block_conditions slcf.block_statuses with
      | some block_status =>
          ({ r with
              headers_out_status := block_status
              count := r.count - 1 },
           some (.finalized block_status))
      | none =>
          ({ r with
              phase_handler := ctx.saved_phase_handler + 1
              count := r.count - 1 },
           some .resumed)

/-- Modelled from the spec: the timer facility (nginx's event timer wheel,
external to this module) clears `ev->timer_set` when the timer expires and
then invokes `ev->handler`, here `ngx_http_sleep_wake_handler`. -/
def timerFire (env : Env) (slcf : LocConf) (r : Request) :
    Request × Option WakeOutcome :=
  match r.moduleCtx with
  | none => (r, none)
  | some ctx =>
      ngx_http_sleep_wake_handler env slcf
        { r with moduleCtx := some { ctx with timer_set := false } }

/-- `ngx_http_sleep_cleanup_handler` (lines 479-501): if `ctx->cleaned_up`
is already set, return at once; otherwise set it, delete the timer if it is
still armed, and decrement `r->main->count`. -/
def ngx_http_sleep_cleanup_handler (r : Request) : Request :=
  match r.moduleCtx with
  | none => r
  | some ctx =>
      if ctx.cleaned_up then r
      else
        let ctx1 := { ctx with cleaned_up := true }
        let ctx2 :=
          if ctx1.timer_set then { ctx1 with timer_set := false } else ctx1
        { r with moduleCtx := some ctx2, count := r.count - 1 }

/-- `ngx_http_sleep_create_loc_conf`: fresh arrays, all empty. -/
def ngx_http_sleep_create_loc_conf : LocConf :=
  { sleep_ms_values := [], block_conditions := [], block_statuses := [] }

/-- `ngx_http_sleep_merge_loc_conf` (lines 145-161): the child inherits the
parent's delay list when its own is empty, and inherits both block arrays
together when its conditions list is empty. -/
def ngx_http_sleep_merge_loc_conf (prev conf : LocConf) : LocConf :=
  let c1 :=
    if conf.sleep_ms_values.isEmpty then
      { conf with sleep_ms_values := prev.sleep_ms_values }
    else conf
  if c1.block_conditions.isEmpty then
    { c1 with
        block_conditions := prev.block_conditions
        block_statuses := prev.block_statuses }
  else c1

/-- The external `ngx_http_compile_complex_value`: turns a directive
argument into a compiled expression, or fails (`NGX_CONF_ERROR`, aborting
the whole configuration load). -/
def Compile : Type := String → Option Expr

/-- `ngx_http_sleep_set` (lines 169-195): compile the single argument and
append it to `sleep_ms_values`; `none` models `NGX_CONF_ERROR`. -/
def ngx_http_sleep_set (compile : Compile) (arg : String) (conf : LocConf) :
    Option LocConf :=
  match compile arg with
  | none => none
  | some v =>
      some { conf with sleep_ms_values := conf.sleep_ms_values ++ [v] }

/-- `ngx_http_block_set` (lines 203-244): compile the condition and append
it to `block_conditions`; when a second argument is present compile it as
the status expression, otherwise store the literal `"503"`
(`ngx_str_set(&status_val.value, "503")` with `lengths = values = NULL`);
append the status to `block_statuses`.  A compilation failure is
`NGX_CONF_ERROR` and aborts the configuration load. -/
def ngx_http_block_set (compile : Compile) (arg1 : String)
    (arg2 : Option String) (conf : LocConf) : Option LocConf :=
  match compile arg1 with
  | none => none
  | some cond =>
      let conf1 :=
        { conf with block_conditions := conf.block_conditions ++ [cond] }
      match arg2 with
      | some a2 =>
          match compile a2 with
          | none => none
          | some st =>
              some { conf1 with
                       block_statuses := conf1.block_statuses ++ [st] }
      | none =>
          some { conf1 with
                   block_statuses := conf1.block_statuses ++ [Expr.lit "503"] }

/-- One configuration directive of this module, as dispatched through
`ngx_http_sleep_commands`: `sb_sleep_ms` takes exactly one argument,
`sb_block` takes one or two. -/
inductive Directive where
  | sleepSet (arg : String)
  | blockSet (arg1 : String) (arg2 : Option String)
deriving DecidableEq, Repr

/-- Dispatch one directive to its parser. -/
def applyDirective (compile : Compile) (conf : LocConf) :
    Directive → Option LocConf
  | .sleepSet a => ngx_http_sleep_set compile a conf
  | .blockSet a1 a2 => ngx_http_block_set compile a1 a2 conf

/-- A configuration load for one scope: the directives are processed in
order, and any parser error aborts the load. -/
def applyDirectives (compile : Compile) (conf : LocConf) :
    List Directive → Option LocConf
  | [] => some conf
  | d :: ds =>
      match applyDirective compile conf d with
      | none => none
      | some c => applyDirectives compile c ds

/-- Specification-side reading of the block loop: the index of the first
rule, in configured order, whose condition evaluates to a non-zero
integer. -/
def firstTruthyIdx (env : Env) : List Expr → Option Nat
  | [] => none
  | c :: cs =>
      if condTruthy env c then some 0
      else Option.map (· + 1) (firstTruthyIdx env cs)

/-- Specification-side status lookup at a matched index (out-of-bounds
reads modelled as the default 503, proved unreachable for parser-produced
configurations). -/
def blockStatusAt (env : Env) (statuses : List Expr) (i : Nat) : Nat :=
  match statuses.get? i with
  | some se => evalBlockStatus env se
  | none => 503

/-- Specification-side reading of one delay expression: its parsed value
when evaluation succeeds on a non-empty string that `ngx_atoi` accepts,
`none` otherwise. -/
def validDelayValue (env : Env) (d : Expr) : Option Nat :=
  match ngx_http_complex_value env d with
  | none => none
  | some val => if 0 < val.length then ngx_atoi val else none

theorem resolveBlock_eq_firstTruthy (env : Env) (conds statuses : List Expr) :
    resolveBlock env conds statuses =
      Option.map (blockStatusAt env statuses) (firstTruthyIdx env conds) := by
  induction conds generalizing statuses with
  | nil => rfl
  | cons c cs ih =>
      cases statuses with
      | nil =>
          by_cases h : condTruthy env c
          · simp [resolveBlock, firstTruthyIdx, h, blockStatusAt]
          · simp [resolveBlock, firstTruthyIdx, h, ih []]
            cases hfi : firstTruthyIdx env cs with
            | none => rfl
            | some i => simp [blockStatusAt]
      | cons se ses =>
          by_cases h : condTruthy env c
          · simp [resolveBlock, firstTruthyIdx, h, blockStatusAt]
          · simp [resolveBlock, firstTruthyIdx, h, ih ses]
            cases hfi : firstTruthyIdx env cs with
            | none => rfl
            | some i => simp [blockStatusAt]

theorem maxSleepLoop_eq (env : Env) (ds : List Expr) (acc : Nat) :
    maxSleepLoop env ds acc =
      max acc (List.foldr max 0 (ds.filterMap (validDelayValue env))) := by
  induction ds generalizing acc with
  | nil => simp [maxSleepLoop]
  | cons d ds ih =>
      cases hv : ngx_http_complex_value env d with
      | none =>
          simp [maxSleepLoop, hv, validDelayValue, ih, List.filterMap_cons]
      | some val =>
          by_cases hl : 0 < val.length
          · cases ha : ngx_atoi val with
            | none =>
                simp [maxSleepLoop, hv, hl, ha, validDelayValue, ih,
                  List.filterMap_cons]
            | some t =>
                simp [maxSleepLoop, hv, hl, ha, validDelayValue, ih,
                  List.filterMap_cons]
                split_ifs <;> omega
          · simp [maxSleepLoop, hv, hl, validDelayValue, ih,
              List.filterMap_cons]

theorem firstTruthyIdx_lt_length (env : Env) (l : List Expr) (i : Nat)
    (h : firstTruthyIdx env l = some i) : i < l.length := by
  induction l generalizing i with
  | nil => simp [firstTruthyIdx] at h
  | cons c cs ih =>
      by_cases hc : condTruthy env c
      · have hi : i = 0 := by
          simp [firstTruthyIdx, hc] at h
          omega
        subst hi
        simp only [List.length_cons]
        omega
      · simp [firstTruthyIdx, hc] at h
        obtain ⟨j, hj, rfl⟩ := h
        have := ih j hj
        simp only [List.length_cons]
        omega

theorem evalBlockStatus_lit503 (env : Env) :
    evalBlockStatus env (Expr.lit "503") = 503 := by rfl

/-- C5: for every configuration with delay expressions, the aggregated
delay computed by the handler's loop equals the maximum over the
expressions whose evaluation succeeds on a non-empty string that `ngx_atoi`
parses (a non-negative integer); failed, empty and non-numeric expressions
are skipped and do not affect the maximum, and when no expression is valid
the aggregated delay is 0 (the fold over an empty list of valid values). -/
theorem c5_delay_aggregation_is_max (env : Env) (delays : List Expr) :
    maxSleep env delays =
      List.foldr max 0 (delays.filterMap (validDelayValue env)) := by
  have h := maxSleepLoop_eq env delays 0
  simpa [maxSleep] using h

/-- C6: the resolved block outcome is exactly the rule at the first index
whose condition evaluates to a non-zero integer (`firstTruthyIdx`, in which
evaluation failure, empty and non-numeric results count as false and the
scan continues); rules after the first match are never selected, and with
no truthy condition there is no block outcome. -/
theorem c6_first_matching_rule_wins (env : Env) (conds statuses : List Expr) :
    resolveBlock env conds statuses =
      Option.map (blockStatusAt env statuses) (firstTruthyIdx env conds) :=
  resolveBlock_eq_firstTruthy env conds statuses

/-- C8: when no block rule matches and the aggregated delay is zero, the
handler declines and leaves the request completely untouched: no context is
allocated, no cleanup hook is registered, no timer is armed and
`r->main->count` is unchanged. -/
theorem c8_decline_allocates_nothing (env : Env) (slcf : LocConf)
    (r : Request)
    (hb : resolveBlock env slcf.block_conditions slcf.block_statuses = none)
    (hs : maxSleep env slcf.sleep_ms_values = 0) :
    ngx_http_sleep_handler env slcf r = (r, PhaseResult.declined) := by
  simp [ngx_http_sleep_handler, hb, hs]

/-- Witness for C8 at a concrete input: one delay expression whose
evaluation fails, no block rules. -/
theorem c8_decline_allocates_nothing_witness :
    resolveBlock (fun _ => none) ([] : List Expr) ([] : List Expr) = none ∧
    maxSleep (fun _ => none) [Expr.var 0] = 0 ∧
    ngx_http_sleep_handler (fun _ => none)
        { sleep_ms_values := [Expr.var 0], block_conditions := [],
          block_statuses := [] }
        { moduleCtx := none, count := 1, headers_out_status := 0,
          phase_handler := 3, cleanups := 0 } =
      ({ moduleCtx := none, count := 1, headers_out_status := 0,
         phase_handler := 3, cleanups := 0 }, PhaseResult.declined) :=
  ⟨by decide, by decide,
   c8_decline_allocates_nothing (fun _ => none)
     { sleep_ms_values := [Expr.var 0], block_conditions := [],
       block_statuses := [] }
     { moduleCtx := none, count := 1, headers_out_status := 0,
       phase_handler := 3, cleanups := 0 } (by decide) (by decide)⟩

/-- C9: invoking the cleanup handler on a context whose `cleaned_up` flag
is already set returns the request state unchanged — no timer deletion, no
counter decrement, no state modification (the handler is `void`, so no
error can be reported). -/
theorem c9_double_cleanup_is_noop (r : Request) (ctx : SleepCtx)
    (hctx : r.moduleCtx = some ctx) (hcl : ctx.cleaned_up = true) :
    ngx_http_sleep_cleanup_handler r = r := by
  simp [ngx_http_sleep_cleanup_handler, hctx, hcl]

/-- Witness for C9 at a concrete input: a context already cleaned up, with
the timer flag still set, is left untouched. -/
theorem c9_double_cleanup_is_noop_witness :
    ({ moduleCtx := some
         { timer_set := true, cleaned_up := true, saved_phase_handler := 2 },
       count := 1, headers_out_status := 0, phase_handler := 2,
       cleanups := 1 } : Request).moduleCtx =
      some { timer_set := true, cleaned_up := true,
             saved_phase_handler := 2 } ∧
    ngx_http_sleep_cleanup_handler
        { moduleCtx := some
            { timer_set := true, cleaned_up := true,
              saved_phase_handler := 2 },
          count := 1, headers_out_status := 0, phase_handler := 2,
          cleanups := 1 } =
      { moduleCtx := some
          { timer_set := true, cleaned_up := true,
            saved_phase_handler := 2 },
        count := 1, headers_out_status := 0, phase_handler := 2,
        cleanups := 1 } :=
  ⟨rfl,
   c9_double_cleanup_is_noop
     { moduleCtx := some
         { timer_set := true, cleaned_up := true, saved_phase_handler := 2 },
       count := 1, headers_out_status := 0, phase_handler := 2,
       cleanups := 1 }
     { timer_set := true, cleaned_up := true, saved_phase_handler := 2 }
     rfl rfl⟩

/-- C7: when the first matching block rule carries the parser-substituted
literal `"503"` status (the `sb_block` directive was given no second
argument) and the aggregated delay is zero, the handler finalizes the
request immediately with status 503. -/
theorem c7_absent_status_defaults_503 (env : Env) (slcf : LocConf)
    (r : Request) (i : Nat)
    (hidx : firstTruthyIdx env slcf.block_conditions = some i)
    (hst : slcf.block_statuses.get? i = some (Expr.lit "503"))
    (hs : maxSleep env slcf.sleep_ms_values = 0) :
    ngx_http_sleep_handler env slcf r =
      ({ r with headers_out_status := 503 }, PhaseResult.finalize 503) := by
  have hst2 : slcf.block_statuses[i]? = some (Expr.lit "503") := by
    rw [← List.get?_eq_getElem?]
    exact hst
  have hres : resolveBlock env slcf.block_conditions slcf.block_statuses =
      some 503 := by
    rw [resolveBlock_eq_firstTruthy, hidx]
    simp [blockStatusAt, hst2, evalBlockStatus_lit503]
  simp [ngx_http_sleep_handler, hres, hs]

/-- Witness for C7 at a concrete input: a scope produced by one `sb_block`
directive with no status argument (the parser stores the literal `"503"`),
no delay directives, and a request hitting the rule. -/
theorem c7_absent_status_defaults_503_witness :
    ngx_http_block_set (fun s => some (Expr.lit s)) "1" none
        ngx_http_sleep_create_loc_conf =
      some { sleep_ms_values := [], block_conditions := [Expr.lit "1"],
             block_statuses := [Expr.lit "503"] } ∧
    firstTruthyIdx (fun _ => none) [Expr.lit "1"] = some 0 ∧
    [Expr.lit "503"].get? 0 = some (Expr.lit "503") ∧
    maxSleep (fun _ => none) ([] : List Expr) = 0 ∧
    ngx_http_sleep_handler (fun _ => none)
        { sleep_ms_values := [], block_conditions := [Expr.lit "1"],
          block_statuses := [Expr.lit "503"] }
        { moduleCtx := none, count := 1, headers_out_status := 0,
          phase_handler := 3, cleanups := 0 } =
      ({ moduleCtx := none, count := 1, headers_out_status := 503,
         phase_handler := 3, cleanups := 0 }, PhaseResult.finalize 503) :=
  ⟨by decide, by decide, by decide, by decide,
   c7_absent_status_defaults_503 (fun _ => none)
     { sleep_ms_values := [], block_conditions := [Expr.lit "1"],
       block_statuses := [Expr.lit "503"] }
     { moduleCtx := none, count := 1, headers_out_status := 0,
       phase_handler := 3, cleanups := 0 } 0
     (by decide) (by decide) (by decide)⟩

/-- C3 counterexample: on the block-plus-delay path, a second invocation of
the handler for a request that already owns a suspension context does NOT
return the decline / pending outcome — it finalizes immediately with the
block status (handler lines 354-358). -/
theorem c3_reentry_counterexample :
    (ngx_http_sleep_handler (fun _ => none)
        { sleep_ms_values := [Expr.lit "5"],
          block_conditions := [Expr.lit "1"],
          block_statuses := [Expr.lit "503"] }
        { moduleCtx := some
            { timer_set := true, cleaned_up := false,
              saved_phase_handler := 3 },
          count := 2, headers_out_status := 0, phase_handler := 3,
          cleanups := 1 }).2 = PhaseResult.finalize 503 ∧
    PhaseResult.finalize 503 ≠ PhaseResult.declined ∧
    PhaseResult.finalize 503 ≠ PhaseResult.done := by decide

/-- C3 amended: a second invocation of the handler on a request that
already owns a suspension context never re-arms — the context, the timer,
the cleanup registration and the outstanding-work counter are all left
unchanged and the pending outcome is never produced again; the outcome is
decline on the delay-only path, but when a block rule currently matches the
handler finalizes immediately with that block status instead of
declining. -/
theorem c3_reentry_never_rearms (env : Env) (slcf : LocConf) (r : Request)
    (ctx : SleepCtx) (hctx : r.moduleCtx = some ctx) :
    (ngx_http_sleep_handler env slcf r).1.moduleCtx = r.moduleCtx ∧
    (ngx_http_sleep_handler env slcf r).1.count = r.count ∧
    (ngx_http_sleep_handler env slcf r).1.cleanups = r.cleanups ∧
    (ngx_http_sleep_handler env slcf r).2 ≠ PhaseResult.done ∧
    ((ngx_http_sleep_handler env slcf r).2 = PhaseResult.declined ∨
      ∃ s, resolveBlock env slcf.block_conditions slcf.block_statuses =
             some s ∧
           (ngx_http_sleep_handler env slcf r).2 =
             PhaseResult.finalize s) := by
  cases hb : resolveBlock env slcf.block_conditions slcf.block_statuses with
  | none =>
      by_cases hs : 0 < maxSleep env slcf.sleep_ms_values
      · have he : ngx_http_sleep_handler env slcf r =
            (r, PhaseResult.declined) := by
          simp [ngx_http_sleep_handler, hb, hs, hctx]
        rw [he]
        exact ⟨rfl, rfl, rfl, by simp, Or.inl rfl⟩
      · have he : ngx_http_sleep_handler env slcf r =
            (r, PhaseResult.declined) := by
          simp [ngx_http_sleep_handler, hb, hs]
        rw [he]
        exact ⟨rfl, rfl, rfl, by simp, Or.inl rfl⟩
  | some s =>
      by_cases hs : 0 < maxSleep env slcf.sleep_ms_values
      · have he : ngx_http_sleep_handler env slcf r =
            ({ r with headers_out_status := s }, PhaseResult.finalize s) := by
          simp [ngx_http_sleep_handler, hb, hs, hctx]
        rw [he]
        exact ⟨rfl, rfl, rfl, by simp, Or.inr ⟨s, rfl, rfl⟩⟩
      · have he : ngx_http_sleep_handler env slcf r =
            ({ r with headers_out_status := s }, PhaseResult.finalize s) := by
          simp [ngx_http_sleep_handler, hb, hs]
        rw [he]
        exact ⟨rfl, rfl, rfl, by simp, Or.inr ⟨s, rfl, rfl⟩⟩

/-- Witness for the amended C3 at a concrete input: a request already
suspended on the delay-only path, handler invoked a second time. -/
theorem c3_reentry_never_rearms_witness :
    ({ moduleCtx := some
         { timer_set := true, cleaned_up := false,
           saved_phase_handler := 3 },
       count := 2, headers_out_status := 0, phase_handler := 3,
       cleanups := 1 } : Request).moduleCtx =
      some { timer_set := true, cleaned_up := false,
             saved_phase_handler := 3 } ∧
    ((ngx_http_sleep_handler (fun _ => none)
        { sleep_ms_values := [Expr.lit "5"], block_conditions := [],
          block_statuses := [] }
        { moduleCtx := some
            { timer_set := true, cleaned_up := false,
              saved_phase_handler := 3 },
          count := 2, headers_out_status := 0, phase_handler := 3,
          cleanups := 1 }).1.moduleCtx =
      ({ moduleCtx := some
           { timer_set := true, cleaned_up := false,
             saved_phase_handler := 3 },
         count := 2, headers_out_status := 0, phase_handler := 3,
         cleanups := 1 } : Request).moduleCtx ∧
    (ngx_http_sleep_handler (fun _ => none)
        { sleep_ms_values := [Expr.lit "5"], block_conditions := [],
          block_statuses := [] }
        { moduleCtx := some
            { timer_set := true, cleaned_up := false,
              saved_phase_handler := 3 },
          count := 2, headers_out_status := 0, phase_handler := 3,
          cleanups := 1 }).1.count = 2 ∧
    (ngx_http_sleep_handler (fun _ => none)
        { sleep_ms_values := [Expr.lit "5"], block_conditions := [],
          block_statuses := [] }
        { moduleCtx := some
            { timer_set := true, cleaned_up := false,
              saved_phase_handler := 3 },
          count := 2, headers_out_status := 0, phase_handler := 3,
          cleanups := 1 }).1.cleanups = 1 ∧
    (ngx_http_sleep_handler (fun _ => none)
        { sleep_ms_values := [Expr.lit "5"], block_conditions := [],
          block_statuses := [] }
        { moduleCtx := some
            { timer_set := true, cleaned_up := false,
              saved_phase_handler := 3 },
          count := 2, headers_out_status := 0, phase_handler := 3,
          cleanups := 1 }).2 ≠ PhaseResult.done ∧
    ((ngx_http_sleep_handler (fun _ => none)
        { sleep_ms_values := [Expr.lit "5"], block_conditions := [],
          block_statuses := [] }
        { moduleCtx := some
            { timer_set := true, cleaned_up := false,
              saved_phase_handler := 3 },
          count := 2, headers_out_status := 0, phase_handler := 3,
          cleanups := 1 }).2 = PhaseResult.declined ∨
      ∃ s, resolveBlock (fun _ => none) ([] : List Expr) ([] : List Expr) =
             some s ∧
           (ngx_http_sleep_handler (fun _ => none)
              { sleep_ms_values := [Expr.lit "5"], block_conditions := [],
                block_statuses := [] }
              { moduleCtx := some
                  { timer_set := true, cleaned_up := false,
                    saved_phase_handler := 3 },
                count := 2, headers_out_status := 0, phase_handler := 3,
                cleanups := 1 }).2 = PhaseResult.finalize s)) :=
  ⟨rfl,
   c3_reentry_never_rearms (fun _ => none)
     { sleep_ms_values := [Expr.lit "5"], block_conditions := [],
       block_statuses := [] }
     { moduleCtx := some
         { timer_set := true, cleaned_up := false,
           saved_phase_handler := 3 },
       count := 2, headers_out_status := 0, phase_handler := 3,
       cleanups := 1 }
     { timer_set := true, cleaned_up := false, saved_phase_handler := 3 }
     rfl⟩

theorem block_set_appends_one (compile : Compile) (a1 : String)
    (a2 : Option String) (c c' : LocConf)
    (h : ngx_http_block_set compile a1 a2 c = some c') :
    c'.block_conditions.length = c.block_conditions.length + 1 ∧
    c'.block_statuses.length = c.block_statuses.length + 1 := by
  unfold ngx_http_block_set at h
  cases hc1 : compile a1 with
  | none => simp [hc1] at h
  | some cond =>
      cases a2 with
      | none =>
          simp [hc1] at h
          subst h
          simp
      | some a2v =>
          cases hc2 : compile a2v with
          | none => simp [hc1, hc2] at h
          | some st =>
              simp [hc1, hc2] at h
              subst h
              simp

theorem applyDirectives_preserves_len (compile : Compile)
    (ds : List Directive) (conf0 conf : LocConf)
    (h : applyDirectives compile conf0 ds = some conf)
    (h0 : conf0.block_conditions.length = conf0.block_statuses.length) :
    conf.block_conditions.length = conf.block_statuses.length := by
  induction ds generalizing conf0 with
  | nil =>
      simp [applyDirectives] at h
      subst h
      exact h0
  | cons d ds ih =>
      simp only [applyDirectives] at h
      cases hd : applyDirective compile conf0 d with
      | none => rw [hd] at h; simp at h
      | some c1 =>
          rw [hd] at h
          refine ih c1 h ?_
          cases d with
          | sleepSet a =>
              unfold applyDirective ngx_http_sleep_set at hd
              cases hc : compile a with
              | none => simp [hc] at hd
              | some v =>
                  simp [hc] at hd
                  subst hd
                  simpa using h0
          | blockSet a1 a2 =>
              have hb := block_set_appends_one compile a1 a2 conf0 c1 hd
              omega

/-- C10: after any successful sequence of `sb_sleep_ms` / `sb_block`
directives starting from a configuration whose block arrays have equal
length (in particular the freshly created empty one), the
`block_conditions` and `block_statuses` arrays still have equal length —
each successful `sb_block` parse appends exactly one element to each — and
therefore the indexed access `statuses[i]` performed at any matching
condition index `i` by the request handler and the wake handler is within
bounds. -/
theorem c10_parallel_block_arrays (compile : Compile) (ds : List Directive)
    (conf0 conf : LocConf)
    (h0 : conf0.block_conditions.length = conf0.block_statuses.length)
    (h : applyDirectives compile conf0 ds = some conf) :
    conf.block_conditions.length = conf.block_statuses.length ∧
    (∀ a1 a2 c c', ngx_http_block_set compile a1 a2 c = some c' →
        c'.block_conditions.length = c.block_conditions.length + 1 ∧
        c'.block_statuses.length = c.block_statuses.length + 1) ∧
    (∀ prev c, prev.block_conditions.length = prev.block_statuses.length →
        c.block_conditions.length = c.block_statuses.length →
        (ngx_http_sleep_merge_loc_conf prev c).block_conditions.length =
          (ngx_http_sleep_merge_loc_conf prev c).block_statuses.length) ∧
    (∀ env i, firstTruthyIdx env conf.block_conditions = some i →
        i < conf.block_statuses.length) := by
  have hlen := applyDirectives_preserves_len compile ds conf0 conf h h0
  refine ⟨hlen, fun a1 a2 c c' hb => block_set_appends_one compile a1 a2 c c' hb,
    ?_, ?_⟩
  · intro prev c hp hc
    unfold ngx_http_sleep_merge_loc_conf
    by_cases h1 : c.sleep_ms_values.isEmpty <;>
      by_cases h2 : c.block_conditions.isEmpty <;>
      simp [h1, h2, hp, hc]
  · intro env i hi
    have := firstTruthyIdx_lt_length env conf.block_conditions i hi
    omega

/-- Witness for C10 at a concrete input: the load
`sb_block "1"; sb_sleep_ms "100"; sb_block "0" "429"` starting from the
freshly created configuration. -/
theorem c10_parallel_block_arrays_witness :
    (ngx_http_sleep_create_loc_conf.block_conditions.length =
      ngx_http_sleep_create_loc_conf.block_statuses.length) ∧
    applyDirectives (fun s => some (Expr.lit s))
        ngx_http_sleep_create_loc_conf
        [Directive.blockSet "1" none, Directive.sleepSet "100",
         Directive.blockSet "0" (some "429")] =
      some { sleep_ms_values := [Expr.lit "100"],
             block_conditions := [Expr.lit "1", Expr.lit "0"],
             block_statuses := [Expr.lit "503", Expr.lit "429"] } ∧
    ({ sleep_ms_values := [Expr.lit "100"],
       block_conditions := [Expr.lit "1", Expr.lit "0"],
       block_statuses := [Expr.lit "503", Expr.lit "429"] } :
        LocConf).block_conditions.length =
      ({ sleep_ms_values := [Expr.lit "100"],
         block_conditions := [Expr.lit "1", Expr.lit "0"],
         block_statuses := [Expr.lit "503", Expr.lit "429"] } :
          LocConf).block_statuses.length :=
  ⟨rfl, by decide,
   (c10_parallel_block_arrays (fun s => some (Expr.lit s))
     [Directive.blockSet "1" none, Directive.sleepSet "100",
      Directive.blockSet "0" (some "429")]
     ngx_http_sleep_create_loc_conf
     { sleep_ms_values := [Expr.lit "100"],
       block_conditions := [Expr.lit "1", Expr.lit "0"],
       block_statuses := [Expr.lit "503", Expr.lit "429"] }
     rfl (by decide)).1⟩

/-- C4: when the decision has both a matching block rule and a positive
aggregated delay (and no suspension exists yet), the handler first arms the
suspension — pending outcome `NGX_DONE`, timer armed, counter incremented,
no immediate finalize — and upon timer fire the wake handler re-evaluates
the block conditions against the wake-time request context: if a rule then
matches it finalizes with that rule's status, otherwise the request resumes
pipeline processing at the saved phase plus one. -/
theorem c4_sleep_then_block (env0 : Env) (slcf : LocConf) (r r1 : Request)
    (res : PhaseResult) (s0 : Nat)
    (hctx : r.moduleCtx = none)
    (hb : resolveBlock env0 slcf.block_conditions slcf.block_statuses =
            some s0)
    (hs : 0 < maxSleep env0 slcf.sleep_ms_values)
    (hr : ngx_http_sleep_handler env0 slcf r = (r1, res)) :
    res = PhaseResult.done ∧
    r1.moduleCtx = some
      { timer_set := true, cleaned_up := false,
        saved_phase_handler := r.phase_handler } ∧
    r1.count = r.count + 1 ∧
    r1.cleanups = r.cleanups + 1 ∧
    (∀ env1 s1,
        resolveBlock env1 slcf.block_conditions slcf.block_statuses =
            some s1 →
        (timerFire env1 slcf r1).2 = some (WakeOutcome.finalized s1) ∧
        (timerFire env1 slcf r1).1.count = r.count ∧
        (timerFire env1 slcf r1).1.headers_out_status = s1) ∧
    (∀ env1,
        resolveBlock env1 slcf.block_conditions slcf.block_statuses =
            none →
        (timerFire env1 slcf r1).2 = some WakeOutcome.resumed ∧
        (timerFire env1 slcf r1).1.count = r.count ∧
        (timerFire env1 slcf r1).1.phase_handler = r.phase_handler + 1) := by
  have he : ngx_http_sleep_handler env0 slcf r =
      ({ r with
           moduleCtx := some
             { timer_set := true, cleaned_up := false,
               saved_phase_handler := r.phase_handler }
           cleanups := r.cleanups + 1
           count := r.count + 1 },
       PhaseResult.done) := by
    simp [ngx_http_sleep_handler, hb, hs, hctx]
  rw [he] at hr
  injection hr with h1 h2
  subst h1
  subst h2
  refine ⟨rfl, rfl, rfl, rfl, ?_, ?_⟩
  · intro env1 s1 hb1
    simp [timerFire, ngx_http_sleep_wake_handler, hb1]
  · intro env1 hb1
    simp [timerFire, ngx_http_sleep_wake_handler, hb1]

/-- Witness for C4 at a concrete input: block condition `"1"`, status
`"429"`, delay `"200"`; after arming, the same environment still matches at
wake time, so the wake handler finalizes with 429. -/
theorem c4_sleep_then_block_witness :
    ({ moduleCtx := none, count := 1, headers_out_status := 0,
       phase_handler := 4, cleanups := 0 } : Request).moduleCtx = none ∧
    resolveBlock (fun _ => none) [Expr.lit "1"] [Expr.lit "429"] =
      some 429 ∧
    0 < maxSleep (fun _ => none) [Expr.lit "200"] ∧
    ((ngx_http_sleep_handler (fun _ => none)
        { sleep_ms_values := [Expr.lit "200"],
          block_conditions := [Expr.lit "1"],
          block_statuses := [Expr.lit "429"] }
        { moduleCtx := none, count := 1, headers_out_status := 0,
          phase_handler := 4, cleanups := 0 }).2 = PhaseResult.done ∧
      ((ngx_http_sleep_handler (fun _ => none)
          { sleep_ms_values := [Expr.lit "200"],
            block_conditions := [Expr.lit "1"],
            block_statuses := [Expr.lit "429"] }
          { moduleCtx := none, count := 1, headers_out_status := 0,
            phase_handler := 4, cleanups := 0 }).1.count = 2)) := by
  refine ⟨rfl, by decide, by decide, ?_, ?_⟩
  · exact (c4_sleep_then_block (fun _ => none)
      { sleep_ms_values := [Expr.lit "200"],
        block_conditions := [Expr.lit "1"],
        block_statuses := [Expr.lit "429"] }
      { moduleCtx := none, count := 1, headers_out_status := 0,
        phase_handler := 4, cleanups := 0 }
      (ngx_http_sleep_handler (fun _ => none)
        { sleep_ms_values := [Expr.lit "200"],
          block_conditions := [Expr.lit "1"],
          block_statuses := [Expr.lit "429"] }
        { moduleCtx := none, count := 1, headers_out_status := 0,
          phase_handler := 4, cleanups := 0 }).1
      (ngx_http_sleep_handler (fun _ => none)
        { sleep_ms_values := [Expr.lit "200"],
          block_conditions := [Expr.lit "1"],
          block_statuses := [Expr.lit "429"] }
        { moduleCtx := none, count := 1, headers_out_status := 0,
          phase_handler := 4, cleanups := 0 }).2
      429 rfl (by decide) (by decide) rfl).1
  · exact (c4_sleep_then_block (fun _ => none)
      { sleep_ms_values := [Expr.lit "200"],
        block_conditions := [Expr.lit "1"],
        block_statuses := [Expr.lit "429"] }
      { moduleCtx := none, count := 1, headers_out_status := 0,
        phase_handler := 4, cleanups := 0 }
      (ngx_http_sleep_handler (fun _ => none)
        { sleep_ms_values := [Expr.lit "200"],
          block_conditions := [Expr.lit "1"],
          block_statuses := [Expr.lit "429"] }
        { moduleCtx := none, count := 1, headers_out_status := 0,
          phase_handler := 4, cleanups := 0 }).1
      (ngx_http_sleep_handler (fun _ => none)
        { sleep_ms_values := [Expr.lit "200"],
          block_conditions := [Expr.lit "1"],
          block_statuses := [Expr.lit "429"] }
        { moduleCtx := none, count := 1, headers_out_status := 0,
          phase_handler := 4, cleanups := 0 }).2
      429 rfl (by decide) (by decide) rfl).2.2.1

/-- C1 (code evaluated at the failing input): a request suspended with
`sb_sleep_ms "5"` starting at `r->main->count = 1` is armed to count 2; the
timer fires and the wake handler resumes the request, decrementing the
counter back to its pre-suspension value 1 — but because the wake handler
never sets `cleaned_up`, the pool cleanup handler that runs at request
teardown decrements the counter AGAIN, to 0.  Over the request's lifetime
the counter does not return to its pre-suspension value exactly once: it is
decremented twice. -/
theorem c1_double_decrement_after_wake :
    ngx_http_sleep_handler (fun _ => none)
        { sleep_ms_values := [Expr.lit "5"], block_conditions := [],
          block_statuses := [] }
        { moduleCtx := none, count := 1, headers_out_status := 0,
          phase_handler := 3, cleanups := 0 } =
      ({ moduleCtx := some
           { timer_set := true, cleaned_up := false,
             saved_phase_handler := 3 },
         count := 2, headers_out_status := 0, phase_handler := 3,
         cleanups := 1 }, PhaseResult.done) ∧
    timerFire (fun _ => none)
        { sleep_ms_values := [Expr.lit "5"], block_conditions := [],
          block_statuses := [] }
        { moduleCtx := some
            { timer_set := true, cleaned_up := false,
              saved_phase_handler := 3 },
          count := 2, headers_out_status := 0, phase_handler := 3,
          cleanups := 1 } =
      ({ moduleCtx := some
           { timer_set := false, cleaned_up := false,
             saved_phase_handler := 3 },
         count := 1, headers_out_status := 0, phase_handler := 4,
         cleanups := 1 }, some WakeOutcome.resumed) ∧
    ngx_http_sleep_cleanup_handler
        { moduleCtx := some
            { timer_set := false, cleaned_up := false,
              saved_phase_handler := 3 },
          count := 1, headers_out_status := 0, phase_handler := 4,
          cleanups := 1 } =
      { moduleCtx := some
          { timer_set := false, cleaned_up := true,
            saved_phase_handler := 3 },
        count := 0, headers_out_status := 0, phase_handler := 4,
        cleanups := 1 } := by decide

/-- C2 (code evaluated at the failing input): when the timer fires on the
finalize-with-block-status path, the wake handler decrements the counter
exactly once (3 to 2) but leaves `cleaned_up = false` — it never writes the
flag on either of its paths — so a cleanup hook running afterwards does not
observe `cleaned_up = true` and decrements the counter a second time (2 to
1) instead of doing nothing. -/
theorem c2_wake_never_sets_cleaned_up :
    timerFire (fun _ => none)
        { sleep_ms_values := [Expr.lit "7"],
          block_conditions := [Expr.lit "1"],
          block_statuses := [Expr.lit "429"] }
        { moduleCtx := some
            { timer_set := true, cleaned_up := false,
              saved_phase_handler := 5 },
          count := 3, headers_out_status := 0, phase_handler := 5,
          cleanups := 1 } =
      ({ moduleCtx := some
           { timer_set := false, cleaned_up := false,
             saved_phase_handler := 5 },
         count := 2, headers_out_status := 429, phase_handler := 5,
         cleanups := 1 }, some (WakeOutcome.finalized 429)) ∧
    (ngx_http_sleep_cleanup_handler
        { moduleCtx := some
            { timer_set := false, cleaned_up := false,
              saved_phase_handler := 5 },
          count := 2, headers_out_status := 429, phase_handler := 5,
          cleanups := 1 }).count = 1 := by decide
